import Mathlib

/-!
Verification of the cost/token accounting and projection engine of the
prompt-optimization demo repository.

The embedded code comes from:
- cost_calculator.py: class CostCalculator (PRICING table, calculate_cost,
  calculate_savings, project_monthly_cost)
- utils.py: estimate_tokens, calculate_cache_savings
- llm_client.py: cached-token estimation in _analyze_groq_caching and
  _simulate_response
- app.py, tab 4 "Calculate Projections": the baseline/optimized monthly
  projection computation

Python float arithmetic is modelled over ℚ (the spec mandates exact
arithmetic with no rounding until display time); Python int() truncation
toward zero is modelled explicitly.
-/

/-- One entry of the pricing table: rates in currency per million tokens.
Each dict literal in CostCalculator.PRICING has exactly these three keys. -/
structure PricingEntry where
  input : ℚ
  output : ℚ
  cached_input : ℚ
deriving DecidableEq, Repr

/-- The "groq" inner table of CostCalculator.PRICING (cost_calculator.py lines 8-36). -/
def PRICING_groq : List (String × PricingEntry) :=
  [("llama-3.1-70b-versatile", ⟨0.27, 0.27, 0.027⟩),
   ("llama-3.1-8b-instant", ⟨0.05, 0.05, 0.005⟩),
   ("mixtral-8x7b-32768", ⟨0.24, 0.24, 0.024⟩),
   ("gemma-7b-it", ⟨0.07, 0.07, 0.007⟩),
   ("llama-3.3-70b-versatile", ⟨0.27, 0.27, 0.027⟩)]

/-- CostCalculator.PRICING: one provider, "groq". -/
def PRICING : List (String × List (String × PricingEntry)) :=
  [("groq", PRICING_groq)]

/-- The fallback model named at cost_calculator.py line 51. -/
def default_model : String := "llama-3.1-70b-versatile"

/-- The model-name resolution step of calculate_cost (lines 49-51):
if the model is not a key of PRICING["groq"], replace it by the default model. -/
def resolve_model (model : String) : String :=
  if (PRICING_groq.lookup model).isSome then model else default_model

/-- The pricing entry calculate_cost ends up using (line 53). The getD default
is never reached: the resolved model is always a key of the table. -/
def resolve_pricing (model : String) : PricingEntry :=
  (PRICING_groq.lookup (resolve_model model)).getD ⟨0, 0, 0⟩

/-- CostCalculator.calculate_cost (cost_calculator.py lines 38-61).
The provider argument is accepted but the lookup key is hardcoded to "groq"
(line 47), so the argument is unused, exactly as in the source. -/
def calculate_cost (input_tokens output_tokens cached_tokens : ℚ)
    (provider model : String) : ℚ :=
  let _ := provider
  let pricing := resolve_pricing model
  let non_cached_input := input_tokens - cached_tokens
  let input_cost := (non_cached_input / 1000000) * pricing.input
  let cached_cost := (cached_tokens / 1000000) * pricing.cached_input
  let output_cost := (output_tokens / 1000000) * pricing.output
  input_cost + cached_cost + output_cost

/-- calculate_cost with every Python dict access modelled as a fallible
lookup (a KeyError would be none), to settle the no-exception claims. -/
def calculate_cost_checked (input_tokens output_tokens cached_tokens : ℚ)
    (provider model : String) : Option ℚ :=
  let _ := provider
  let provider_key := "groq"
  match PRICING.lookup provider_key with
  | none => none
  | some table =>
    let model1 := if (table.lookup model).isSome then model else default_model
    match table.lookup model1 with
    | none => none
    | some pricing =>
      some ((input_tokens - cached_tokens) / 1000000 * pricing.input
        + cached_tokens / 1000000 * pricing.cached_input
        + output_tokens / 1000000 * pricing.output)

/-- Result of CostCalculator.calculate_savings. -/
structure Savings where
  absolute : ℚ
  percentage : ℚ
deriving Repr

/-- CostCalculator.calculate_savings (cost_calculator.py lines 63-75). -/
def calculate_savings (original_cost optimized_cost : ℚ) : Savings :=
  let savings := original_cost - optimized_cost
  let savings_percentage :=
    if 0 < original_cost then savings / original_cost * 100 else 0
  ⟨savings, savings_percentage⟩

/-- Division modelled as fallible: a Python ZeroDivisionError is none. -/
def qdiv_checked (a b : ℚ) : Option ℚ :=
  if b = 0 then none else some (a / b)

/-- calculate_savings with the division modelled as fallible; the Python
conditional expression evaluates the division only when original_cost > 0. -/
def calculate_savings_checked (original_cost optimized_cost : ℚ) : Option Savings :=
  let savings := original_cost - optimized_cost
  match (if 0 < original_cost
         then (qdiv_checked savings original_cost).map (fun r => r * 100)
         else some 0) with
  | none => none
  | some p => some ⟨savings, p⟩

/-- Result of calculate_cache_savings (utils.py). -/
structure CacheSavings where
  total_savings : ℚ
  savings_percentage : ℚ
  cost_without_cache : ℚ
  cost_with_cache : ℚ
deriving Repr

/-- utils.calculate_cache_savings (utils.py lines 32-48). -/
def calculate_cache_savings (first_request_cost cached_request_cost : ℚ)
    (num_cached_requests : ℚ) : CacheSavings :=
  let total_without_cache := first_request_cost * (1 + num_cached_requests)
  let total_with_cache := first_request_cost + cached_request_cost * num_cached_requests
  let savings := total_without_cache - total_with_cache
  let savings_percentage :=
    if 0 < total_without_cache then savings / total_without_cache * 100 else 0
  ⟨savings, savings_percentage, total_without_cache, total_with_cache⟩

/-- Result of the tab-4 projection computation in app.py. -/
structure ProjectionResult where
  cost_without_opt : ℚ
  cost_with_opt : ℚ
  monthly_savings : ℚ
  savings_percentage : ℚ
  annual_savings : ℚ
deriving Repr

/-- The "Calculate Projections" computation of app.py tab 4 (lines 432-449):
baseline prices all document tokens for every question at input_price;
the optimized path charges the first request in full, each later question
at a tenth of the document size, and prices the whole optimized total at
cached_price. -/
def calculate_projections (daily_users avg_document_size avg_questions_per_user
    days_per_month input_price cached_price : ℚ) : ProjectionResult :=
  let total_sessions := daily_users * days_per_month
  let tokens_per_session := avg_document_size * avg_questions_per_user
  let total_tokens := total_sessions * tokens_per_session
  let cost_without_opt := total_tokens / 1000000 * input_price
  let first_request_tokens := avg_document_size
  let cached_request_tokens := avg_document_size * 0.1
  let tokens_per_session_optimized :=
    first_request_tokens + cached_request_tokens * (avg_questions_per_user - 1)
  let total_tokens_optimized := total_sessions * tokens_per_session_optimized
  let cost_with_opt := total_tokens_optimized / 1000000 * cached_price
  let monthly_savings := cost_without_opt - cost_with_opt
  let annual_savings := monthly_savings * 12
  let savings_percentage :=
    if 0 < cost_without_opt then monthly_savings / cost_without_opt * 100 else 0
  ⟨cost_without_opt, cost_with_opt, monthly_savings, savings_percentage, annual_savings⟩

/-- Python int(q): truncation toward zero. -/
def trunc_toward_zero (q : ℚ) : ℤ :=
  if q < 0 then ⌈q⌉ else ⌊q⌋

/-- utils.estimate_tokens: len(text) // 4. -/
def estimate_tokens (text : String) : ℕ :=
  text.length / 4

/-- The cached-token estimation of _analyze_groq_caching
(llm_client.py lines 106-113): zero on a first request or when caching is
disabled; otherwise int(0.9 * (input_tokens - len(question) // 4)). -/
def groq_cached_tokens (input_tokens : ℤ) (question : String)
    (enable_caching is_first_request : Bool) : ℤ :=
  if ¬is_first_request ∧ enable_caching then
    let static_tokens : ℤ := input_tokens - (question.length / 4 : ℕ)
    trunc_toward_zero ((static_tokens : ℚ) * 0.9)
  else 0

/-- The input-token estimate of _simulate_response (llm_client.py lines
221-225): 500 system tokens plus len // 4 for document and question. -/
def simulate_input_tokens (document question : String) : ℤ :=
  500 + (document.length / 4 : ℕ) + (question.length / 4 : ℕ)

/-- The cached-token estimation of _simulate_response (llm_client.py lines
229-231): zero on a first request, otherwise int((500 + doc_tokens) * 0.9). -/
def simulate_cached_tokens (document : String) (is_first_request : Bool) : ℤ :=
  if ¬is_first_request then
    trunc_toward_zero (((500 + (document.length / 4 : ℕ) : ℤ) : ℚ) * 0.9)
  else 0

/-! ### Helper lemmas -/

/-- A successful association-list lookup returns one of the stored values. -/
lemma lookup_mem_values {α β : Type} [BEq α] {l : List (α × β)} {a : α} {b : β}
    (h : l.lookup a = some b) : b ∈ l.map Prod.snd := by
  induction l with
  | nil => simp [List.lookup] at h
  | cons hd tl ih =>
    obtain ⟨k, v⟩ := hd
    rw [List.lookup] at h
    by_cases hb : (a == k) = true
    · rw [hb] at h
      simp at h
      simp [h]
    · rw [Bool.not_eq_true] at hb
      rw [hb] at h
      simp [ih h]

/-- The pricing entry calculate_cost resolves to is always one of the five
entries of the table. -/
lemma resolve_pricing_mem (m : String) :
    resolve_pricing m ∈ PRICING_groq.map Prod.snd := by
  unfold resolve_pricing resolve_model
  by_cases h : (PRICING_groq.lookup m).isSome
  · obtain ⟨e, he⟩ := Option.isSome_iff_exists.mp h
    rw [if_pos h, he, Option.getD_some]
    exact lookup_mem_values he
  · have hd : PRICING_groq.lookup default_model = some ⟨0.27, 0.27, 0.027⟩ := rfl
    rw [if_neg h, hd, Option.getD_some]
    exact lookup_mem_values hd

/-- Every entry of the table has non-negative rates and a cached rate at most
the input rate. -/
lemma entries_ok : ∀ e ∈ PRICING_groq.map Prod.snd,
    0 ≤ e.input ∧ 0 ≤ e.output ∧ 0 ≤ e.cached_input ∧ e.cached_input ≤ e.input := by
  simp [PRICING_groq]
  norm_num

/-- Rate facts for the entry any model name resolves to. -/
lemma resolve_pricing_ok (m : String) :
    0 ≤ (resolve_pricing m).input ∧ 0 ≤ (resolve_pricing m).output
    ∧ 0 ≤ (resolve_pricing m).cached_input
    ∧ (resolve_pricing m).cached_input ≤ (resolve_pricing m).input :=
  entries_ok _ (resolve_pricing_mem m)

/-- calculate_savings never attempts a division by zero. -/
lemma savings_checked_isSome (oc opt : ℚ) :
    (calculate_savings_checked oc opt).isSome = true := by
  unfold calculate_savings_checked qdiv_checked
  split
  · rename_i h
    simp [ne_of_gt h]
  · simp

/-! ### Claims -/

/-- C1: for non-negative token counts with cached_tokens at most input_tokens,
calculate_cost returns exactly the sum of the input, cached and output cost
components computed from the resolved pricing entry, and the total is
non-negative. -/
theorem claim_C1_cost_exact_and_nonneg (i o c : ℚ) (provider model : String)
    (hi : 0 ≤ i) (ho : 0 ≤ o) (hc : 0 ≤ c) (hci : c ≤ i) :
    calculate_cost i o c provider model =
      (i - c) / 1000000 * (resolve_pricing model).input
      + c / 1000000 * (resolve_pricing model).cached_input
      + o / 1000000 * (resolve_pricing model).output
    ∧ 0 ≤ calculate_cost i o c provider model := by
  obtain ⟨h1, h2, h3, _⟩ := resolve_pricing_ok model
  refine ⟨rfl, ?_⟩
  have t1 : 0 ≤ (i - c) / 1000000 * (resolve_pricing model).input :=
    mul_nonneg (div_nonneg (by linarith) (by norm_num)) h1
  have t2 : 0 ≤ c / 1000000 * (resolve_pricing model).cached_input :=
    mul_nonneg (div_nonneg hc (by norm_num)) h3
  have t3 : 0 ≤ o / 1000000 * (resolve_pricing model).output :=
    mul_nonneg (div_nonneg ho (by norm_num)) h2
  unfold calculate_cost
  dsimp only
  linarith

/-- Witness for C1 at a concrete usage. -/
theorem claim_C1_witness :
    (0:ℚ) ≤ 5000 ∧ (0:ℚ) ≤ 200 ∧ (0:ℚ) ≤ 1000 ∧ (1000:ℚ) ≤ 5000
    ∧ (calculate_cost 5000 200 1000 "groq" "llama-3.1-70b-versatile" =
        (5000 - 1000) / 1000000 * (resolve_pricing "llama-3.1-70b-versatile").input
        + 1000 / 1000000 * (resolve_pricing "llama-3.1-70b-versatile").cached_input
        + 200 / 1000000 * (resolve_pricing "llama-3.1-70b-versatile").output
      ∧ 0 ≤ calculate_cost 5000 200 1000 "groq" "llama-3.1-70b-versatile") :=
  ⟨by norm_num, by norm_num, by norm_num, by norm_num,
   claim_C1_cost_exact_and_nonneg 5000 200 1000 "groq" "llama-3.1-70b-versatile"
     (by norm_num) (by norm_num) (by norm_num) (by norm_num)⟩

/-- C2: with caching enabled and all scenario fields positive, the optimized
monthly cost of the projection is total sessions times the per-session
optimized tokens (full document once, a tenth of the document for each later
question), divided by one million and priced at the cached rate. -/
theorem claim_C2_optimized_cost (du D Q dpm ip cp : ℚ)
    (h1 : 0 < du) (h2 : 0 < D) (h3 : 0 < Q) (h4 : 0 < dpm) :
    (calculate_projections du D Q dpm ip cp).cost_with_opt =
      du * dpm * (D + 0.1 * D * (Q - 1)) / 1000000 * cp := by
  unfold calculate_projections
  dsimp only
  ring

/-- Witness for C2 at the documented scenario. -/
theorem claim_C2_witness :
    (0:ℚ) < 1000 ∧ (0:ℚ) < 30000 ∧ (0:ℚ) < 10 ∧ (0:ℚ) < 30
    ∧ (calculate_projections 1000 30000 10 30 0.27 0.027).cost_with_opt =
        1000 * 30 * (30000 + 0.1 * 30000 * (10 - 1)) / 1000000 * 0.027 :=
  ⟨by norm_num, by norm_num, by norm_num, by norm_num,
   claim_C2_optimized_cost 1000 30000 10 30 0.27 0.027
     (by norm_num) (by norm_num) (by norm_num) (by norm_num)⟩

/-- C3 counterexample: at the documented scenario the baseline monthly cost
computed by the code is 2430 dollars, not the 24,300,000 dollars the claim
names. -/
theorem claim_C3_counterexample :
    (calculate_projections 1000 30000 10 30 0.27 0.027).cost_without_opt = 2430
    ∧ (calculate_projections 1000 30000 10 30 0.27 0.027).cost_without_opt ≠ 24300000 := by
  norm_num [calculate_projections]

/-- C3 amended: at the documented scenario the baseline is 2430 dollars
(the true value of 1000*30*30000*10/1e6*0.27), the optimized monthly cost is
strictly below the baseline, and the savings percentage lies in (0, 100]. -/
theorem claim_C3_scenario :
    (calculate_projections 1000 30000 10 30 0.27 0.027).cost_without_opt = 2430
    ∧ (calculate_projections 1000 30000 10 30 0.27 0.027).cost_with_opt
        < (calculate_projections 1000 30000 10 30 0.27 0.027).cost_without_opt
    ∧ 0 < (calculate_projections 1000 30000 10 30 0.27 0.027).savings_percentage
    ∧ (calculate_projections 1000 30000 10 30 0.27 0.027).savings_percentage ≤ 100 := by
  norm_num [calculate_projections]

/-- C4: a model name that is not a key of the "groq" pricing table resolves
to the same cost as the default model, for every usage. -/
theorem claim_C4_unknown_model_fallback (i o c : ℚ) (p m : String)
    (h : PRICING_groq.lookup m = none) :
    calculate_cost i o c p m = calculate_cost i o c p default_model := by
  unfold calculate_cost resolve_pricing resolve_model
  rw [h]
  simp

/-- Witness for C4 at the documented unknown model name. -/
theorem claim_C4_witness :
    PRICING_groq.lookup "nonexistent-model" = none
    ∧ calculate_cost 100 50 20 "groq" "nonexistent-model"
        = calculate_cost 100 50 20 "groq" "llama-3.1-70b-versatile" :=
  ⟨rfl, claim_C4_unknown_model_fallback 100 50 20 "groq" "nonexistent-model" rfl⟩

/-- C5: calculate_savings returns original minus optimized as the absolute
saving, the zero-guarded percentage, and never divides by zero; likewise
calculate_cache_savings returns a zero percentage when the no-cache total
is zero. -/
theorem claim_C5_division_guards (oc opt f cr n : ℚ) :
    (calculate_savings oc opt).absolute = oc - opt
    ∧ (0 < oc → (calculate_savings oc opt).percentage = (oc - opt) / oc * 100)
    ∧ (¬0 < oc → (calculate_savings oc opt).percentage = 0)
    ∧ (calculate_savings_checked oc opt).isSome = true
    ∧ (f * (1 + n) = 0 → (calculate_cache_savings f cr n).savings_percentage = 0) := by
  refine ⟨rfl, ?_, ?_, savings_checked_isSome oc opt, ?_⟩
  · intro h
    simp [calculate_savings, h]
  · intro h
    simp [calculate_savings, h]
  · intro h
    unfold calculate_cache_savings
    dsimp only
    rw [h]
    simp

/-- Witness for C5 at concrete costs, with a zero no-cache total. -/
theorem claim_C5_witness :
    (calculate_savings 2 1).percentage = (2 - 1) / 2 * 100
    ∧ (calculate_cache_savings 0 5 3).savings_percentage = 0 :=
  ⟨(claim_C5_division_guards 2 1 0 5 3).2.1 (by norm_num),
   (claim_C5_division_guards 2 1 0 5 3).2.2.2.2 (by norm_num)⟩

/-- C6: in both response-producing paths the cached token count is zero on a
first request; on a later request with caching enabled it is
0.9 * (input tokens minus the length-over-4 question-token estimate)
truncated to an integer; at 5000 input tokens and a question estimated at
2 tokens the count is 4498. -/
theorem claim_C6_cached_token_estimation :
    (∀ (i : ℤ) (q : String) (ec : Bool), groq_cached_tokens i q ec true = 0)
    ∧ (∀ (d : String), simulate_cached_tokens d true = 0)
    ∧ (∀ (i : ℤ) (q : String),
        groq_cached_tokens i q true false =
          trunc_toward_zero (((i - (estimate_tokens q : ℤ) : ℤ) : ℚ) * 0.9))
    ∧ (∀ (d q : String),
        simulate_cached_tokens d false =
          trunc_toward_zero (((simulate_input_tokens d q - (estimate_tokens q : ℤ) : ℤ) : ℚ) * 0.9))
    ∧ groq_cached_tokens 5000 "What is X?" true false = 4498
    ∧ estimate_tokens "What is X?" = 2 := by
  refine ⟨?_, ?_, ?_, ?_, ?_, rfl⟩
  · intro i q ec
    simp [groq_cached_tokens]
  · intro d
    simp [simulate_cached_tokens]
  · intro i q
    simp [groq_cached_tokens, estimate_tokens]
  · intro d q
    have he : (simulate_input_tokens d q - (estimate_tokens q : ℤ) : ℤ)
        = 500 + (d.length / 4 : ℕ) := by
      unfold simulate_input_tokens estimate_tokens
      ring
    simp [simulate_cached_tokens, he]
  · have h : "What is X?".length = 10 := rfl
    norm_num [groq_cached_tokens, trunc_toward_zero, h]

/-- C7: every entry of the pricing table has cached_input at most input, so
pricing any fixed non-negative token count at the cached tier never exceeds
pricing it at the non-cached input tier. -/
theorem claim_C7_cached_rate_invariant :
    (∀ pm ∈ PRICING, ∀ e ∈ pm.2.map Prod.snd, e.cached_input ≤ e.input)
    ∧ (∀ pm ∈ PRICING, ∀ e ∈ pm.2.map Prod.snd, ∀ t : ℚ, 0 ≤ t →
        t / 1000000 * e.cached_input ≤ t / 1000000 * e.input) := by
  have h1 : ∀ pm ∈ PRICING, ∀ e ∈ pm.2.map Prod.snd, e.cached_input ≤ e.input := by
    intro pm hpm
    rw [PRICING, List.mem_singleton] at hpm
    subst hpm
    exact fun e he => (entries_ok e he).2.2.2
  refine ⟨h1, ?_⟩
  intro pm hpm e he t ht
  exact mul_le_mul_of_nonneg_left (h1 pm hpm e he) (div_nonneg ht (by norm_num))

/-- Witness for C7 at the default model entry and 1000 tokens. -/
theorem claim_C7_witness :
    ("groq", PRICING_groq) ∈ PRICING
    ∧ (⟨0.27, 0.27, 0.027⟩ : PricingEntry) ∈ PRICING_groq.map Prod.snd
    ∧ (0:ℚ) ≤ 1000
    ∧ (1000:ℚ) / 1000000 * (PricingEntry.mk 0.27 0.27 0.027).cached_input
        ≤ 1000 / 1000000 * (PricingEntry.mk 0.27 0.27 0.027).input :=
  ⟨by simp [PRICING], by simp [PRICING_groq], by norm_num,
   claim_C7_cached_rate_invariant.2 ("groq", PRICING_groq) (by simp [PRICING])
     ⟨0.27, 0.27, 0.027⟩ (by simp [PRICING_groq]) 1000 (by norm_num)⟩

/-- C8: with positive scenario fields and rates satisfying the pricing-table
invariant (non-negative cached rate at most the input rate), adding one
question raises the optimized monthly cost by no more than the cost of a
tenth of the document tokens at the full input rate across all sessions. -/
theorem claim_C8_marginal_cost_bound (du D Q dpm ip cp : ℚ)
    (h1 : 0 < du) (h2 : 0 < D) (h3 : 0 < Q) (h4 : 0 < dpm)
    (h5 : 0 ≤ cp) (h6 : cp ≤ ip) :
    (calculate_projections du D (Q + 1) dpm ip cp).cost_with_opt
      - (calculate_projections du D Q dpm ip cp).cost_with_opt
    ≤ du * dpm * (0.1 * D) / 1000000 * ip := by
  have key : (calculate_projections du D (Q + 1) dpm ip cp).cost_with_opt
      - (calculate_projections du D Q dpm ip cp).cost_with_opt
      = du * dpm * (0.1 * D) / 1000000 * cp := by
    unfold calculate_projections
    dsimp only
    ring
  rw [key]
  have hn : 0 ≤ du * dpm * (0.1 * D) / 1000000 := by positivity
  exact mul_le_mul_of_nonneg_left h6 hn

/-- Witness for C8 at the documented scenario. -/
theorem claim_C8_witness :
    (0:ℚ) < 1000 ∧ (0:ℚ) < 30000 ∧ (0:ℚ) < 10 ∧ (0:ℚ) < 30
    ∧ (0:ℚ) ≤ 0.027 ∧ (0.027:ℚ) ≤ 0.27
    ∧ (calculate_projections 1000 30000 (10 + 1) 30 0.27 0.027).cost_with_opt
        - (calculate_projections 1000 30000 10 30 0.27 0.027).cost_with_opt
      ≤ 1000 * 30 * (0.1 * 30000) / 1000000 * 0.27 :=
  ⟨by norm_num, by norm_num, by norm_num, by norm_num, by norm_num, by norm_num,
   claim_C8_marginal_cost_bound 1000 30000 10 30 0.27 0.027
     (by norm_num) (by norm_num) (by norm_num) (by norm_num) (by norm_num) (by norm_num)⟩

/-- The checked cost computation always succeeds and agrees with the pure
calculate_cost. -/
lemma calculate_cost_checked_eq (i o c : ℚ) (p m : String) :
    calculate_cost_checked i o c p m = some (calculate_cost i o c p m) := by
  unfold calculate_cost_checked calculate_cost resolve_pricing resolve_model
  have hp : PRICING.lookup "groq" = some PRICING_groq := rfl
  dsimp only
  rw [hp]
  by_cases h : (PRICING_groq.lookup m).isSome
  · obtain ⟨e, he⟩ := Option.isSome_iff_exists.mp h
    simp [h, he]
  · have hd : PRICING_groq.lookup default_model = some ⟨0.27, 0.27, 0.027⟩ := rfl
    simp [h, hd]

/-- C9: for every token-count triple (degenerate values included) and every
provider and model string, the checked cost computation returns a value,
and the checked savings computation returns a value: no lookup or division
in the core raises. -/
theorem claim_C9_never_raises (i o c oc opt : ℚ) (p m : String) :
    (calculate_cost_checked i o c p m).isSome = true
    ∧ (calculate_savings_checked oc opt).isSome = true := by
  refine ⟨?_, savings_checked_isSome oc opt⟩
  rw [calculate_cost_checked_eq]
  rfl

/-- C10: calculate_cost ignores its provider argument: any two provider
strings give identical results, in the pure and the checked computation. -/
theorem claim_C10_provider_independent (i o c : ℚ) (p1 p2 m : String) :
    calculate_cost i o c p1 m = calculate_cost i o c p2 m
    ∧ calculate_cost_checked i o c p1 m = calculate_cost_checked i o c p2 m :=
  ⟨rfl, rfl⟩
